import Mathlib

/-
Verification of the payment-processing core of this repository.

The authoritative code is the capability-based (LSP-compliant) payment catalog and
processor in src/unnamed/part_001 (lines 121-258) and the Open/Closed payment kinds in
src/Solid Principle/openClosed/index.md (lines 95-160).

Modelling conventions:
- TypeScript numbers are modelled as exact rationals (Rat); the code uses only
  comparison, addition, subtraction and multiplication by the literal 0.03, so exact
  rational arithmetic is faithful at the grain of the properties below.
- Stateful objects (the gift card with its private balance) are modelled by explicit
  state passing: a method takes the state and returns the result paired with the new
  state.
- Every method that the TypeScript runtime could abort with a thrown exception is given
  an Except-valued result type; the compliant catalog never produces the error branch,
  which is exactly the content of the no-exceptions discipline.
- The structural membership tests of the source (the in-operator checks for the refund
  and calculateFees properties) are modelled by Option-valued fields: the field is some
  function exactly when the TypeScript object has the property.
- Console logging carries no semantic content and is discarded, except that the fee the
  processor computes and logs on a successful payment is kept as an observable output.
- The code signals failure of an operation by the boolean result false (its only
  failure channel); the error names of the specification are matched to the decision
  branch of the code that produces each false.
-/

/-- An exception escaping a method, as a value: the error channel that a thrown
TypeScript `Error` would use. The compliant catalog never produces it. -/
inductive PayError where
  | thrown (msg : String)
deriving DecidableEq

/-- Result test for Except-valued operations: true exactly on the ok branch. -/
def isOkE {ε α : Type} : Except ε α → Bool
  | .ok _ => true
  | .error _ => false

/-- The payment-method interface of src/unnamed/part_001 (lines 123-135), with the
optional-capability interfaces RefundablePayment and FeeBasedPayment folded in as
Option-valued fields: `refund = some r` models a TypeScript object having the refund
property (the target of the in-operator check), and likewise for `calculateFees`. -/
structure PaymentMethod (σ : Type) where
  processPayment : σ → Rat → Except PayError (Bool × σ)
  isRefundable : σ → Bool
  getPaymentType : σ → String
  refund : Option (σ → Rat → Except PayError (Bool × σ))
  calculateFees : Option (σ → Rat → Except PayError Rat)

/-- CreditCardPayment (src/unnamed/part_001 lines 138-160): stateless, refundable,
fee-based with a 3 percent fee. -/
def CreditCardPayment : PaymentMethod Unit where
  processPayment := fun s _ => pure (true, s)
  isRefundable := fun _ => true
  getPaymentType := fun _ => "CreditCard"
  refund := some fun s _ => pure (true, s)
  calculateFees := some fun _ amount => pure (amount * 0.03)

/-- CashPayment (src/unnamed/part_001 lines 162-175): stateless, not refundable, and
carries neither a refund nor a calculateFees property. -/
def CashPayment : PaymentMethod Unit where
  processPayment := fun s _ => pure (true, s)
  isRefundable := fun _ => false
  getPaymentType := fun _ => "Cash"
  refund := none
  calculateFees := none

/-- The private balance of a GiftCardPayment object (initialised to 1000 in the
source). -/
structure GiftCardState where
  balance : Rat
deriving DecidableEq

/-- The initial balance of a freshly constructed GiftCardPayment. -/
def GiftCardPayment.initialBalance : Rat := 1000

/-- GiftCardPayment.processPayment (src/unnamed/part_001 lines 180-193): rejects
non-positive amounts and amounts above the balance by returning false (never by
throwing), otherwise debits the balance and returns true. -/
def GiftCardPayment.processPaymentFn (s : GiftCardState) (amount : Rat) :
    Except PayError (Bool × GiftCardState) :=
  if amount ≤ 0 then
    pure (false, s)
  else if amount > s.balance then
    pure (false, s)
  else
    pure (true, ⟨s.balance - amount⟩)

/-- GiftCardPayment.refund (src/unnamed/part_001 lines 195-199): unconditionally
credits the amount to the balance and returns true. The signature takes only the
amount (and the balance state): it carries no reference to any originating
transaction. -/
def GiftCardPayment.refundFn (s : GiftCardState) (amount : Rat) :
    Except PayError (Bool × GiftCardState) :=
  pure (true, ⟨s.balance + amount⟩)

/-- GiftCardPayment (src/unnamed/part_001 lines 177-208): refundable, balance-tracked,
no calculateFees property. -/
def GiftCardPayment : PaymentMethod GiftCardState where
  processPayment := GiftCardPayment.processPaymentFn
  isRefundable := fun _ => true
  getPaymentType := fun _ => "GiftCard"
  refund := some GiftCardPayment.refundFn
  calculateFees := none

/-- The refund override of the LSP-violating CashPayment shown as the anti-pattern in
src/unnamed/part_001 (lines 71-74): it throws. Kept here only to show that the error
channel of the embedding is inhabited; the compliant catalog never reaches it. -/
def CashPaymentViolation.refund : Rat → Except PayError Bool :=
  fun _ => .error (.thrown "Cash payments cannot be refunded!")

/-- PaymentProcessor.processPayment (src/unnamed/part_001 lines 212-226): runs the
processPayment of the variant; on success, if the object has a calculateFees property the
fee is computed (and logged - modelled as the middle component of the result,
none when no fee was computed); the success boolean of the variant is returned. -/
def PaymentProcessor.processPayment {σ : Type} (payment : PaymentMethod σ) (s : σ)
    (amount : Rat) : Except PayError (Bool × Option Rat × σ) :=
  match payment.processPayment s amount with
  | .error e => .error e
  | .ok (success, s1) =>
    if success then
      match payment.calculateFees with
      | some f =>
        match f s1 amount with
        | .error e => .error e
        | .ok fees => .ok (success, some fees, s1)
      | none => .ok (success, none, s1)
    else
      .ok (success, none, s1)

/-- PaymentProcessor.processRefund (src/unnamed/part_001 lines 228-240): if the method
reports itself non-refundable, return false at once; else if the object has a refund
property, delegate to it; else return false. -/
def PaymentProcessor.processRefund {σ : Type} (payment : PaymentMethod σ) (s : σ)
    (amount : Rat) : Except PayError (Bool × σ) :=
  if !payment.isRefundable s then
    pure (false, s)
  else
    match payment.refund with
    | some r => r s amount
    | none => pure (false, s)

/-- Modelled from the spec: the Processor operation getFees(methodId, amount) is absent
from the source; per the spec (sections 4.3 and 6) it returns 0 if the method lacks the
fee capability (never an error) and otherwise delegates to calculateFees. The capability
check is the same structural test the in-source processor uses for its fee branch. -/
def PaymentProcessor.getFees {σ : Type} (payment : PaymentMethod σ) (s : σ)
    (amount : Rat) : Except PayError Rat :=
  match payment.calculateFees with
  | some f => f s amount
  | none => pure 0

deriving instance DecidableEq for Except

/-- The payment-method interface of the Open/Closed example
(src/Solid Principle/openClosed/index.md lines 97-101): a validation predicate and a
processing action whose console output carries no semantic content. -/
structure OCPPaymentMethod where
  processPayment : Rat → Unit
  validatePayment : Rat → Bool

/-- CreditCardPayment of the Open/Closed example (index.md lines 104-113): valid
amounts are positive and at most the credit-card limit 10000. -/
def OCP.CreditCardPayment : OCPPaymentMethod where
  processPayment := fun _ => ()
  validatePayment := fun amount => decide (amount > 0) && decide (amount ≤ 10000)

/-- PayPalPayment of the Open/Closed example (index.md lines 115-124): valid amounts
are the positive ones, with no upper limit. -/
def OCP.PayPalPayment : OCPPaymentMethod where
  processPayment := fun _ => ()
  validatePayment := fun amount => decide (amount > 0)

/-- UPIPayment of the Open/Closed example (index.md lines 127-136): valid amounts are
positive and at most the UPI limit 100000. -/
def OCP.UPIPayment : OCPPaymentMethod where
  processPayment := fun _ => ()
  validatePayment := fun amount => decide (amount > 0) && decide (amount ≤ 100000)

/-- BitcoinPayment of the Open/Closed example (index.md lines 153-161): valid amounts
are the positive ones, with no upper limit. -/
def OCP.BitcoinPayment : OCPPaymentMethod where
  processPayment := fun _ => ()
  validatePayment := fun amount => decide (amount > 0)

/-- PaymentProcessor.process of the Open/Closed example (index.md lines 139-146):
validate, then run the payment and return true; return false when validation fails. -/
def OCP.PaymentProcessor.process (method : OCPPaymentMethod) (amount : Rat) : Bool :=
  if method.validatePayment amount then
    let _ := method.processPayment amount
    true
  else
    false

/-- The registered kinds of the Open/Closed example. -/
inductive OCPKind where
  | creditCard
  | payPal
  | upi
  | bitcoin
deriving DecidableEq

/-- The catalog mapping each registered kind to its implementation. -/
def OCP.catalog : OCPKind → OCPPaymentMethod
  | .creditCard => OCP.CreditCardPayment
  | .payPal => OCP.PayPalPayment
  | .upi => OCP.UPIPayment
  | .bitcoin => OCP.BitcoinPayment

/-- The configured ceiling of each kind, read off the validatePayment bodies of the source
(credit-card limit 10000, UPI limit 100000; PayPal and Bitcoin have none). -/
def OCP.ceiling : OCPKind → Option Rat
  | .creditCard => some 10000
  | .payPal => none
  | .upi => some 100000
  | .bitcoin => none

/-- The validation error taxonomy of the spec (section 7). -/
inductive ValidationError where
  | invalidAmount
  | limitExceeded
deriving DecidableEq

/-- Validation contract written from the words of the spec (section 4.2): fail with
InvalidAmountError when the amount is non-positive, with LimitExceededError when it
exceeds the configured ceiling of the kind, and succeed otherwise. Stated separately from
the boolean validatePayment of the source so the two can be compared. -/
def specValidate (ceiling : Option Rat) (amount : Rat) : Except ValidationError Unit :=
  if amount ≤ 0 then
    .error .invalidAmount
  else
    match ceiling with
    | some c => if amount > c then .error .limitExceeded else .ok ()
    | none => .ok ()

/-- One request against the gift card through the processor: a payment or a refund of
a given amount. -/
inductive GCOp where
  | pay (amount : Rat)
  | refundOp (amount : Rat)
deriving DecidableEq

/-- True when the operation is not a refund of a negative amount. -/
def GCOp.refundNonneg : GCOp → Bool
  | .pay _ => true
  | .refundOp a => decide (0 ≤ a)

/-- The gift-card state reached after one processor call (the result boolean is
discarded; the error branch, which the gift card never produces, leaves the state). -/
def gcStep (s : GiftCardState) : GCOp → GiftCardState
  | .pay a =>
    match PaymentProcessor.processPayment GiftCardPayment s a with
    | .ok r => r.2.2
    | .error _ => s
  | .refundOp a =>
    match PaymentProcessor.processRefund GiftCardPayment s a with
    | .ok r => r.2
    | .error _ => s

/-- The gift-card state reached after a sequence of processor calls. -/
def gcRun (s : GiftCardState) (ops : List GCOp) : GiftCardState :=
  ops.foldl gcStep s

theorem processPayment_giftcard (s : GiftCardState) (a : Rat) :
    PaymentProcessor.processPayment GiftCardPayment s a =
      if a ≤ 0 then .ok (false, none, s)
      else if s.balance < a then .ok (false, none, s)
      else .ok (true, none, ⟨s.balance - a⟩) := by
  by_cases h1 : a ≤ 0
  · simp [PaymentProcessor.processPayment, GiftCardPayment,
      GiftCardPayment.processPaymentFn, h1, pure, Except.pure]
  · by_cases h2 : s.balance < a
    · simp [PaymentProcessor.processPayment, GiftCardPayment,
        GiftCardPayment.processPaymentFn, h1, h2, pure, Except.pure]
    · simp [PaymentProcessor.processPayment, GiftCardPayment,
        GiftCardPayment.processPaymentFn, h1, h2, pure, Except.pure]

theorem processRefund_giftcard (s : GiftCardState) (a : Rat) :
    PaymentProcessor.processRefund GiftCardPayment s a = .ok (true, ⟨s.balance + a⟩) := by
  simp [PaymentProcessor.processRefund, GiftCardPayment, GiftCardPayment.refundFn,
    pure, Except.pure]

theorem process_eq_validate (m : OCPPaymentMethod) (a : Rat) :
    OCP.PaymentProcessor.process m a = m.validatePayment a := by
  by_cases h : m.validatePayment a = true <;> simp [OCP.PaymentProcessor.process, h]

theorem validate_canon_some (c a : Rat) :
    (decide (a > 0) && decide (a ≤ c)) = isOkE (specValidate (some c) a) := by
  by_cases h0 : a ≤ 0
  · simp [specValidate, h0, isOkE, not_lt.mpr h0]
  · by_cases h1 : a ≤ c
    · simp [specValidate, h0, h1, isOkE, lt_of_not_le h0, not_lt.mpr h1]
    · simp [specValidate, h0, h1, isOkE, not_le.mp h1]

theorem validate_canon_none (a : Rat) :
    decide (a > 0) = isOkE (specValidate (none : Option Rat) a) := by
  by_cases h0 : a ≤ 0
  · simp [specValidate, h0, isOkE, not_lt.mpr h0]
  · simp [specValidate, h0, isOkE, lt_of_not_le h0]

theorem specValidate_invalid (c0 : Option Rat) (a : Rat) (h : a ≤ 0) :
    specValidate c0 a = .error .invalidAmount := by
  simp [specValidate, h]

theorem specValidate_limit (c a : Rat) (h0 : ¬ a ≤ 0) (h : c < a) :
    specValidate (some c) a = .error .limitExceeded := by
  simp [specValidate, h0, h]

theorem gcStep_nonneg (s : GiftCardState) (op : GCOp) (hs : 0 ≤ s.balance)
    (hop : op.refundNonneg = true) : 0 ≤ (gcStep s op).balance := by
  cases op with
  | pay a =>
    simp only [gcStep, processPayment_giftcard]
    by_cases h1 : a ≤ 0
    · simpa [h1] using hs
    · by_cases h2 : s.balance < a
      · simpa [h1, h2] using hs
      · simp [h1, h2]
        linarith [not_lt.mp h2]
  | refundOp a =>
    simp only [gcStep, processRefund_giftcard]
    simp only [GCOp.refundNonneg, decide_eq_true_eq] at hop
    simpa using add_nonneg hs hop

/-- C1 counterexample: the scenario of the spec (register a gift card with balance
1000, pay 400, refund 400) followed by a second refund of 100 on the same card: the
second refund does not fail - it succeeds and credits again, and the cumulative
refunded amount 400 + 100 exceeds the original payment amount 400. -/
theorem second_refund_succeeds_concrete :
    PaymentProcessor.processPayment GiftCardPayment ⟨1000⟩ 400 = .ok (true, none, ⟨600⟩) ∧
    PaymentProcessor.processRefund GiftCardPayment ⟨600⟩ 400 = .ok (true, ⟨1000⟩) ∧
    PaymentProcessor.processRefund GiftCardPayment ⟨1000⟩ 100 = .ok (true, ⟨1100⟩) ∧
    (400 : Rat) + 100 > 400 := by
  refine ⟨?_, ?_, ?_, by norm_num⟩
  · rw [processPayment_giftcard]; norm_num
  · rw [processRefund_giftcard]; norm_num
  · rw [processRefund_giftcard]; norm_num

/-- C1 amended: there is no duplicate-refund detection anywhere in the code. A refund
on the gift card always succeeds and credits the balance, and after a successful
refund a subsequent refund of any amount succeeds again, so the cumulative refunded
amount is unbounded and can exceed the original payment amount. -/
theorem refunds_always_succeed (s : GiftCardState) (a1 a2 : Rat) :
    PaymentProcessor.processRefund GiftCardPayment s a1 = .ok (true, ⟨s.balance + a1⟩) ∧
    PaymentProcessor.processRefund GiftCardPayment ⟨s.balance + a1⟩ a2 =
      .ok (true, ⟨s.balance + a1 + a2⟩) :=
  ⟨processRefund_giftcard s a1, processRefund_giftcard ⟨s.balance + a1⟩ a2⟩

/-- C2: for every payment method lacking the Refundable capability (any method record
whose isRefundable answers false), every amount and every prior state, the processor
refuses the refund with the returned result value false - never a thrown exception -
and leaves the state unchanged. The statement is parametric in the method, so the
decision rests solely on the capability check, not on the concrete kind. -/
theorem refund_nonrefundable_fails {σ : Type} (p : PaymentMethod σ) (s : σ) (a : Rat)
    (h : p.isRefundable s = false) :
    PaymentProcessor.processRefund p s a = .ok (false, s) := by
  simp [PaymentProcessor.processRefund, h, pure, Except.pure]

theorem refund_nonrefundable_fails_witness :
    PaymentProcessor.processRefund CashPayment () 10 = .ok (false, ()) :=
  refund_nonrefundable_fails CashPayment () 10 rfl

/-- C3 counterexample: a single refund of -2000 against the gift card at its initial
balance 1000 is accepted by the processor and drives the balance to -1000, below
zero. -/
theorem negative_refund_drives_balance_negative :
    PaymentProcessor.processRefund GiftCardPayment ⟨GiftCardPayment.initialBalance⟩ (-2000) =
      .ok (true, ⟨-1000⟩) ∧ (-1000 : Rat) < 0 := by
  refine ⟨?_, by norm_num⟩
  rw [processRefund_giftcard]
  norm_num [GiftCardPayment.initialBalance]

/-- C3 amended: the balance-tracked gift card never goes negative under payments and
under refunds of non-negative amounts: processPayment fails (returns false, state
unchanged) whenever the amount exceeds the balance, and every sequence of processor
payments and non-negative-amount refunds preserves non-negativity of the balance.
(A refund of a negative amount can still drive the balance negative, as the
counterexample shows.) -/
theorem balance_nonneg_under_nonneg_refunds :
    (∀ (s : GiftCardState) (a : Rat), s.balance < a →
      PaymentProcessor.processPayment GiftCardPayment s a = .ok (false, none, s)) ∧
    (∀ (ops : List GCOp) (s : GiftCardState), 0 ≤ s.balance →
      (∀ op ∈ ops, op.refundNonneg = true) → 0 ≤ (gcRun s ops).balance) := by
  constructor
  · intro s a h
    rw [processPayment_giftcard]
    by_cases h1 : a ≤ 0 <;> simp [h1, h]
  · intro ops
    induction ops with
    | nil => intro s hs _; simpa [gcRun] using hs
    | cons op rest ih =>
      intro s hs hops
      have h1 : op.refundNonneg = true := hops op (List.mem_cons_self op rest)
      have h2 : ∀ o ∈ rest, o.refundNonneg = true :=
        fun o ho => hops o (List.mem_cons_of_mem op ho)
      simpa [gcRun, List.foldl_cons] using ih (gcStep s op) (gcStep_nonneg s op hs h1) h2

theorem balance_nonneg_under_nonneg_refunds_witness :
    PaymentProcessor.processPayment GiftCardPayment ⟨100⟩ 200 = .ok (false, none, ⟨100⟩) ∧
    0 ≤ (gcRun ⟨1000⟩ [GCOp.pay 400, GCOp.refundOp 400, GCOp.pay 700]).balance :=
  ⟨balance_nonneg_under_nonneg_refunds.1 ⟨100⟩ 200 (by decide),
   balance_nonneg_under_nonneg_refunds.2 [GCOp.pay 400, GCOp.refundOp 400, GCOp.pay 700]
     ⟨1000⟩ (by decide) (by decide)⟩

/-- C4: for every payment method of the catalog and every amount and state, the three
processor-reachable operations (payment, refund, fee query) return a result value on
the ok branch of the error monad - no exception value ever crosses the processor
boundary; failures travel as the boolean false inside the ok result. -/
theorem processor_ops_never_throw :
    (∀ a : Rat, isOkE (PaymentProcessor.processPayment CreditCardPayment () a) = true) ∧
    (∀ a : Rat, isOkE (PaymentProcessor.processPayment CashPayment () a) = true) ∧
    (∀ (s : GiftCardState) (a : Rat),
      isOkE (PaymentProcessor.processPayment GiftCardPayment s a) = true) ∧
    (∀ a : Rat, isOkE (PaymentProcessor.processRefund CreditCardPayment () a) = true) ∧
    (∀ a : Rat, isOkE (PaymentProcessor.processRefund CashPayment () a) = true) ∧
    (∀ (s : GiftCardState) (a : Rat),
      isOkE (PaymentProcessor.processRefund GiftCardPayment s a) = true) ∧
    (∀ a : Rat, isOkE (PaymentProcessor.getFees CreditCardPayment () a) = true) ∧
    (∀ a : Rat, isOkE (PaymentProcessor.getFees CashPayment () a) = true) ∧
    (∀ (s : GiftCardState) (a : Rat),
      isOkE (PaymentProcessor.getFees GiftCardPayment s a) = true) := by
  refine ⟨fun a => rfl, fun a => rfl, fun s a => ?_, fun a => rfl, fun a => rfl,
    fun s a => ?_, fun a => rfl, fun a => rfl, fun s a => rfl⟩
  · rw [processPayment_giftcard]
    by_cases h1 : a ≤ 0
    · simp [h1, isOkE]
    · by_cases h2 : s.balance < a <;> simp [h1, h2, isOkE]
  · rw [processRefund_giftcard]; rfl

/-- C7: for every payment method lacking the FeeBearing capability (no calculateFees
property), the fee query returns 0 and never an error, and the payment path of the processor
path produces no fee and adds no error of its own: its result is exactly the
result of the variant with the fee component none, so no fee code path - throwing or
otherwise - exists for such a method. -/
theorem fees_skipped_without_capability {σ : Type} (p : PaymentMethod σ)
    (h : p.calculateFees = none) :
    (∀ (s : σ) (a : Rat), PaymentProcessor.getFees p s a = .ok 0) ∧
    (∀ (s : σ) (a : Rat), PaymentProcessor.processPayment p s a =
      (p.processPayment s a).map (fun r => (r.1, none, r.2))) := by
  constructor
  · intro s a
    simp [PaymentProcessor.getFees, h, pure, Except.pure]
  · intro s a
    cases hp : p.processPayment s a with
    | error e => simp [PaymentProcessor.processPayment, h, hp, Except.map]
    | ok r =>
      obtain ⟨b, s1⟩ := r
      cases b <;> simp [PaymentProcessor.processPayment, h, hp, Except.map]

theorem fees_skipped_without_capability_witness :
    PaymentProcessor.getFees CashPayment () 50 = .ok 0 :=
  (fees_skipped_without_capability CashPayment rfl).1 () 50

/-- C8: the non-balance-tracked kinds of the catalog never fail at the payment step -
credit card and cash succeed for every amount (the credit card also reporting its
3 percent fee) - while for the balance-tracked gift card, given a validated
(positive) amount, the payment fails exactly when the amount exceeds the balance. -/
theorem nonbalance_kinds_never_fail :
    (∀ a : Rat, PaymentProcessor.processPayment CreditCardPayment () a =
      .ok (true, some (a * 0.03), ())) ∧
    (∀ a : Rat, PaymentProcessor.processPayment CashPayment () a = .ok (true, none, ())) ∧
    (∀ (s : GiftCardState) (a : Rat), 0 < a →
      (PaymentProcessor.processPayment GiftCardPayment s a = .ok (false, none, s) ↔
        s.balance < a)) := by
  refine ⟨fun a => rfl, fun a => rfl, fun s a ha => ?_⟩
  rw [processPayment_giftcard]
  have h1 : ¬ a ≤ 0 := not_le.mpr ha
  by_cases h2 : s.balance < a
  · simp [h1, h2]
  · simp [h1, h2]

theorem nonbalance_kinds_never_fail_witness :
    PaymentProcessor.processPayment CashPayment () 7 = .ok (true, none, ()) ∧
    PaymentProcessor.processPayment GiftCardPayment ⟨300⟩ 500 = .ok (false, none, ⟨300⟩) :=
  ⟨nonbalance_kinds_never_fail.2.1 7,
   (nonbalance_kinds_never_fail.2.2 ⟨300⟩ 500 (by decide)).mpr (by decide)⟩

/-- C9: for every amount that is non-positive or exceeds the current balance, the gift
card processPayment returns false and leaves the balance exactly unchanged - no
partial debit on the failure path. -/
theorem giftcard_failure_leaves_balance (s : GiftCardState) (a : Rat)
    (h : a ≤ 0 ∨ s.balance < a) :
    GiftCardPayment.processPaymentFn s a = .ok (false, s) := by
  rcases h with h | h
  · simp [GiftCardPayment.processPaymentFn, h, pure, Except.pure]
  · by_cases h1 : a ≤ 0 <;>
      simp [GiftCardPayment.processPaymentFn, h, h1, pure, Except.pure]

theorem giftcard_failure_leaves_balance_witness :
    GiftCardPayment.processPaymentFn ⟨1000⟩ 1500 = .ok (false, ⟨1000⟩) :=
  giftcard_failure_leaves_balance ⟨1000⟩ 1500 (Or.inr (by decide))

/-- C10: for every amount - including zero and negative amounts - the gift card
refund returns true and sets the balance to balance + amount, with no validation of
the amount; its signature carries no reference to any originating transaction, and a
negative refund amount strictly decreases the balance. -/
theorem giftcard_refund_unconditional (s : GiftCardState) (a : Rat) :
    GiftCardPayment.refundFn s a = .ok (true, ⟨s.balance + a⟩) ∧
    GiftCardPayment.refund = some GiftCardPayment.refundFn ∧
    (a < 0 → s.balance + a < s.balance) := by
  refine ⟨rfl, rfl, fun h => ?_⟩
  linarith

theorem giftcard_refund_unconditional_witness :
    GiftCardPayment.refundFn ⟨1000⟩ (-200) = .ok (true, ⟨1000 + -200⟩) ∧
    (1000 : Rat) + -200 < 1000 :=
  ⟨(giftcard_refund_unconditional ⟨1000⟩ (-200)).1,
   (giftcard_refund_unconditional ⟨1000⟩ (-200)).2.2 (by decide)⟩

/-- C5: for every registered kind of the Open/Closed example, process fails (returns
false) on every non-positive amount - the branch the spec names InvalidAmountError -
and on every amount above the configured ceiling of the kind - the branch the spec names
LimitExceededError; and the validation rule of each kind is exactly "the amount is
positive and within the declared ceiling of the kind" and nothing stricter, shown both as
an iff and as pointwise agreement with the validation contract written from the
words of the spec. -/
theorem validation_rules_exact (k : OCPKind) (a : Rat) :
    ((OCP.catalog k).validatePayment a = true ↔
      0 < a ∧ ∀ c, OCP.ceiling k = some c → a ≤ c) ∧
    (a ≤ 0 → OCP.PaymentProcessor.process (OCP.catalog k) a = false ∧
      specValidate (OCP.ceiling k) a = .error .invalidAmount) ∧
    (∀ c, OCP.ceiling k = some c → c < a →
      OCP.PaymentProcessor.process (OCP.catalog k) a = false ∧
      specValidate (OCP.ceiling k) a = .error .limitExceeded) ∧
    ((OCP.catalog k).validatePayment a = isOkE (specValidate (OCP.ceiling k) a)) := by
  cases k with
  | creditCard =>
    refine ⟨by simp [OCP.catalog, OCP.CreditCardPayment, OCP.ceiling],
            fun ha => ⟨?_, specValidate_invalid _ _ ha⟩,
            fun c hc hlt => ⟨?_, ?_⟩,
            by simpa [OCP.catalog, OCP.CreditCardPayment, OCP.ceiling] using
              validate_canon_some 10000 a⟩
    · rw [process_eq_validate]
      simp [OCP.catalog, OCP.CreditCardPayment, not_lt.mpr ha]
    · rw [process_eq_validate]
      obtain rfl : (10000 : Rat) = c := by simpa [OCP.ceiling] using hc
      simp [OCP.catalog, OCP.CreditCardPayment, not_le.mpr hlt]
    · obtain rfl : (10000 : Rat) = c := by simpa [OCP.ceiling] using hc
      exact specValidate_limit _ _ (not_le.mpr (by linarith)) hlt
  | payPal =>
    refine ⟨by simp [OCP.catalog, OCP.PayPalPayment, OCP.ceiling],
            fun ha => ⟨?_, specValidate_invalid _ _ ha⟩,
            fun c hc => by simp [OCP.ceiling] at hc,
            by simpa [OCP.catalog, OCP.PayPalPayment, OCP.ceiling] using
              validate_canon_none a⟩
    · rw [process_eq_validate]
      simp [OCP.catalog, OCP.PayPalPayment, not_lt.mpr ha]
  | upi =>
    refine ⟨by simp [OCP.catalog, OCP.UPIPayment, OCP.ceiling],
            fun ha => ⟨?_, specValidate_invalid _ _ ha⟩,
            fun c hc hlt => ⟨?_, ?_⟩,
            by simpa [OCP.catalog, OCP.UPIPayment, OCP.ceiling] using
              validate_canon_some 100000 a⟩
    · rw [process_eq_validate]
      simp [OCP.catalog, OCP.UPIPayment, not_lt.mpr ha]
    · rw [process_eq_validate]
      obtain rfl : (100000 : Rat) = c := by simpa [OCP.ceiling] using hc
      simp [OCP.catalog, OCP.UPIPayment, not_le.mpr hlt]
    · obtain rfl : (100000 : Rat) = c := by simpa [OCP.ceiling] using hc
      exact specValidate_limit _ _ (not_le.mpr (by linarith)) hlt
  | bitcoin =>
    refine ⟨by simp [OCP.catalog, OCP.BitcoinPayment, OCP.ceiling],
            fun ha => ⟨?_, specValidate_invalid _ _ ha⟩,
            fun c hc => by simp [OCP.ceiling] at hc,
            by simpa [OCP.catalog, OCP.BitcoinPayment, OCP.ceiling] using
              validate_canon_none a⟩
    · rw [process_eq_validate]
      simp [OCP.catalog, OCP.BitcoinPayment, not_lt.mpr ha]

theorem validation_rules_exact_witness :
    OCP.PaymentProcessor.process (OCP.catalog .creditCard) 0 = false ∧
    specValidate (OCP.ceiling .creditCard) 0 = .error .invalidAmount ∧
    OCP.PaymentProcessor.process (OCP.catalog .upi) 200000 = false ∧
    specValidate (OCP.ceiling .upi) 200000 = .error .limitExceeded :=
  ⟨((validation_rules_exact .creditCard 0).2.1 (by decide)).1,
   ((validation_rules_exact .creditCard 0).2.1 (by decide)).2,
   ((validation_rules_exact .upi 200000).2.2.1 100000 rfl (by decide)).1,
   ((validation_rules_exact .upi 200000).2.2.1 100000 rfl (by decide)).2⟩

/-- C6 counterexample: the gift card is a registered kind with no configured ceiling,
yet the positive amount 1500 (vacuously within the absent ceiling) is not processed
successfully from the initial balance 1000: the processor reports false and leaves
the state unchanged, because success additionally requires the amount to be within
the current balance. -/
theorem process_positive_amount_can_fail :
    (0 : Rat) < 1500 ∧
    PaymentProcessor.processPayment GiftCardPayment ⟨GiftCardPayment.initialBalance⟩ 1500 =
      .ok (false, none, ⟨GiftCardPayment.initialBalance⟩) := by
  refine ⟨by norm_num, ?_⟩
  rw [processPayment_giftcard]
  norm_num [GiftCardPayment.initialBalance]

/-- C6 amended: for every Open/Closed kind, every amount that is positive and within
the configured ceiling of the kind (no bound for the kinds without one) is processed
successfully; for the balance-tracked gift card the corresponding guarantee holds for
amounts within the current balance, and then the posterior balance is exactly the
prior balance minus the amount. -/
theorem process_within_limits_succeeds :
    (∀ (k : OCPKind) (a : Rat), 0 < a → (∀ c, OCP.ceiling k = some c → a ≤ c) →
      OCP.PaymentProcessor.process (OCP.catalog k) a = true) ∧
    (∀ (s : GiftCardState) (a : Rat), 0 < a → a ≤ s.balance →
      PaymentProcessor.processPayment GiftCardPayment s a =
        .ok (true, none, ⟨s.balance - a⟩)) := by
  constructor
  · intro k a ha hc
    rw [process_eq_validate]
    cases k with
    | creditCard =>
      have := hc 10000 rfl
      simp [OCP.catalog, OCP.CreditCardPayment, ha, this]
    | payPal => simp [OCP.catalog, OCP.PayPalPayment, ha]
    | upi =>
      have := hc 100000 rfl
      simp [OCP.catalog, OCP.UPIPayment, ha, this]
    | bitcoin => simp [OCP.catalog, OCP.BitcoinPayment, ha]
  · intro s a ha hb
    rw [processPayment_giftcard]
    simp [not_le.mpr ha, not_lt.mpr hb]

theorem process_within_limits_succeeds_witness :
    OCP.PaymentProcessor.process (OCP.catalog .payPal) 5 = true ∧
    PaymentProcessor.processPayment GiftCardPayment ⟨1000⟩ 400 =
      .ok (true, none, ⟨1000 - 400⟩) :=
  ⟨process_within_limits_succeeds.1 .payPal 5 (by decide) (by simp [OCP.ceiling]),
   process_within_limits_succeeds.2 ⟨1000⟩ 400 (by decide) (by decide)⟩
